import Mathlib

/-!
Verification of the dashboard grid/placement engine: coordinate codec,
geometry validation, JSON normalization and layout migration, embedded
shallowly from the TypeScript sources
(src/artifacts/dashboard/utils.ts, src/lib/dashboard/serialization.ts).

Modelling conventions:
 - JavaScript numbers are modelled as Int (all inputs considered are
   integral; fractional and non-finite values are outside the model).
 - JSON.parse output is modelled by the inductive type Js; the composite
   JSON.parse (JSON.stringify d) for an in-memory dashboard d is modelled
   by the explicit encoding jsOfDashboard (stringify/parse is exact on
   records of integers and strings).
 - JavaScript strings processed character-by-character (the coordinate
   codec) are modelled as lists of UTF-16 code units (List Nat), matching
   charCodeAt / fromCharCode semantics.
 - Thrown exceptions are modelled with Except String / Except CoordError.
 - The ambient clock (new Date().toISOString()) is passed explicitly as a
   string parameter named now.
 - The numeric coercion Number(x) is modelled for undefined, null,
   booleans and numbers; coercion of strings, arrays and objects to
   numbers is outside the model (no input considered here exercises it).
-/

namespace Rift

/-- JSON values as produced by JSON.parse. Object fields are kept as an
association list (JSON.parse keeps the last duplicate key; inputs here
have distinct keys, looked up by first match). -/
inductive Js where
  | null : Js
  | bool (b : Bool) : Js
  | num (n : Int) : Js
  | str (s : String) : Js
  | arr (elems : List Js) : Js
  | obj (fields : List (String × Js)) : Js

/-- Truthiness of a JSON value under JavaScript coercion to boolean. -/
def Js.truthy : Js → Bool
  | .null => false
  | .bool b => b
  | .num n => n != 0
  | .str s => s != ""
  | .arr _ => true
  | .obj _ => true

/-- Test for the JavaScript predicate (v and typeof v === 'object'),
used by the validators: passes exactly on arrays and objects (null is
falsy, so it is already excluded by the truthiness guard). -/
def Js.isTruthyObject : Js → Bool
  | .arr _ => true
  | .obj _ => true
  | _ => false

/-- Property access o.k on a parsed JSON value: none models undefined. -/
def Js.getField : Js → String → Option Js
  | .obj fields, k => fields.lookup k
  | _, _ => none

/-- Property access on a possibly undefined value using the optional
chain a?.k: undefined and null give undefined, a number or string member
access also yields undefined for the keys used here. -/
def optChainField (v : Option Js) (k : String) : Option Js :=
  match v with
  | none => none
  | some .null => none
  | some j => j.getField k

/-- Modelled Number(x) for the values this engine feeds it: undefined
gives NaN (none), null gives 0, booleans give 0 or 1, numbers are kept.
String / array / object coercion is outside the model (treated as NaN). -/
def jsNumber : Option Js → Option Int
  | none => none
  | some .null => some 0
  | some (.bool b) => some (if b then 1 else 0)
  | some (.num n) => some n
  | some (.str _) => none
  | some (.arr _) => none
  | some (.obj _) => none

/-- Evaluation of the idiom (Number(x) || d): NaN and 0 both fall back
to the default d. -/
def numOr (v : Option Js) (d : Int) : Int :=
  match jsNumber v with
  | none => d
  | some n => if n = 0 then d else n

/-- Evaluation of the idiom (x || d) on JSON values: any falsy value
falls back to the default d. -/
def jsOr (v : Option Js) (d : Js) : Js :=
  match v with
  | none => d
  | some j => if j.truthy then j else d

/-! Data model (src/artifacts/dashboard/types — GridLayout, GridPosition,
GridSize, Widget, DashboardMetadata, DashboardData). The content and
config fields of a widget and the metadata fields are free-form JSON at
runtime, so they are modelled as Js. -/

/-- Cell pixel dimensions of the grid layout. -/
structure CellSize where
  width : Int
  height : Int
  deriving DecidableEq, Repr

/-- Grid layout: column/row counts and cell pixel size. -/
structure GridLayout where
  columns : Int
  rows : Int
  cellSize : CellSize
  deriving DecidableEq, Repr

/-- Zero-based grid position of a widget. -/
structure GridPosition where
  column : Int
  row : Int
  deriving DecidableEq, Repr

/-- Size of a widget in cells spanned. -/
structure GridSize where
  width : Int
  height : Int
  deriving DecidableEq, Repr

/-- A dashboard widget. The type field is a string at runtime; content
and config are opaque JSON values. -/
structure Widget where
  id : String
  type : String
  position : GridPosition
  size : GridSize
  content : Js
  config : Js

/-- Dashboard metadata. The runtime normalization only guarantees
truthiness (not stringness) for the defaulted fields, so each field is a
JSON value. -/
structure DashboardMetadata where
  createdAt : Js
  lastModified : Js
  theme : Js
  title : Js
  description : Js

/-- A full dashboard document. -/
structure DashboardData where
  version : String
  layout : GridLayout
  widgets : List Widget
  metadata : DashboardMetadata

/-! Geometry validator (src/artifacts/dashboard/utils.ts). -/

/-- Translation of isValidPosition (utils.ts lines 109-116). -/
def isValidPosition (position : GridPosition) (layout : GridLayout) : Bool :=
  position.column ≥ 0 &&
  position.column < layout.columns &&
  position.row ≥ 0 &&
  position.row < layout.rows

/-- Translation of isValidWidgetPlacement (utils.ts lines 124-134). -/
def isValidWidgetPlacement (widget : Widget) (layout : GridLayout) : Bool :=
  let endColumn := widget.position.column + widget.size.width - 1
  let endRow := widget.position.row + widget.size.height - 1
  widget.position.column ≥ 0 &&
  widget.position.row ≥ 0 &&
  endColumn < layout.columns &&
  endRow < layout.rows

/-- Translation of doWidgetsOverlap (utils.ts lines 142-158). -/
def doWidgetsOverlap (widget1 widget2 : Widget) : Bool :=
  if widget1.id = widget2.id then
    false
  else
    let w1EndCol := widget1.position.column + widget1.size.width - 1
    let w1EndRow := widget1.position.row + widget1.size.height - 1
    let w2EndCol := widget2.position.column + widget2.size.width - 1
    let w2EndRow := widget2.position.row + widget2.size.height - 1
    !(w1EndCol < widget2.position.column ||
      widget1.position.column > w2EndCol ||
      w1EndRow < widget2.position.row ||
      widget1.position.row > w2EndRow)

/-- Intersection of the half-open footprints of two widgets on both
axes: some grid cell coordinate pair lies in both rectangles
(column,column+width) x (row,row+height), lower bounds closed. -/
def footprintsIntersect (a b : Widget) : Prop :=
  (∃ x : Int, a.position.column ≤ x ∧ x < a.position.column + a.size.width ∧
    b.position.column ≤ x ∧ x < b.position.column + b.size.width) ∧
  (∃ y : Int, a.position.row ≤ y ∧ y < a.position.row + a.size.height ∧
    b.position.row ≤ y ∧ y < b.position.row + b.size.height)

/-! Layout migration engine (second document inside
src/lib/dashboard/serialization.ts: updateDashboardLayout,
adjustWidgetsToLayout, getAffectedWidgets). -/

/-- Layout clamping performed by updateDashboardLayout (lines 295-302). -/
def clampProposedLayout (newLayout : GridLayout) : GridLayout :=
  { columns := max 1 (min 12 newLayout.columns)
    rows := max 1 (min 12 newLayout.rows)
    cellSize :=
      { width := max 100 (min 500 newLayout.cellSize.width)
        height := max 100 (min 500 newLayout.cellSize.height) } }

/-- Per-widget body of adjustWidgetsToLayout (lines 322-345), with the
source's evaluation order made explicit. The source shallow-copies the
widget, so the later reads of widget.position.column / widget.position.row
in the size checks observe the values already written through the shared
position record; the reads of widget.size in the position branches still
observe the original size. -/
def adjustWidget (widget : Widget) (layout : GridLayout) : Widget :=
  let col1 :=
    if widget.position.column ≥ layout.columns then
      max 0 (layout.columns - widget.size.width)
    else widget.position.column
  let row1 :=
    if widget.position.row ≥ layout.rows then
      max 0 (layout.rows - widget.size.height)
    else widget.position.row
  let width1 :=
    if col1 + widget.size.width > layout.columns then
      max 1 (layout.columns - col1)
    else widget.size.width
  let height1 :=
    if row1 + widget.size.height > layout.rows then
      max 1 (layout.rows - row1)
    else widget.size.height
  { widget with
      position := { column := col1, row := row1 }
      size :=
        { width := max 1 (min 6 width1)
          height := max 1 (min 6 height1) } }

/-- Translation of adjustWidgetsToLayout (lines 321-347), value level. -/
def adjustWidgetsToLayout (widgets : List Widget) (layout : GridLayout) : List Widget :=
  widgets.map (fun widget => adjustWidget widget layout)

/-- Translation of updateDashboardLayout (lines 288-316). -/
def updateDashboardLayout (dashboard : DashboardData) (newLayout : GridLayout)
    (now : String) : DashboardData :=
  let validatedLayout := clampProposedLayout newLayout
  let adjustedWidgets := adjustWidgetsToLayout dashboard.widgets validatedLayout
  { dashboard with
      layout := validatedLayout
      widgets := adjustedWidgets
      metadata := { dashboard.metadata with lastModified := .str now } }

/-- Result record of getAffectedWidgets. -/
structure AffectedWidgets where
  unaffected : List Widget
  affected : List Widget
  removed : List Widget

/-- Translation of getAffectedWidgets (lines 454-494): a fold over the
widget list pushing each widget onto exactly one of the three lists. The
currentLayout parameter is accepted and unused, as in the source. -/
def getAffectedWidgets (widgets : List Widget) (_currentLayout newLayout : GridLayout) :
    AffectedWidgets :=
  widgets.foldl
    (fun acc widget =>
      let widgetEndCol := widget.position.column + widget.size.width
      let widgetEndRow := widget.position.row + widget.size.height
      if widget.position.column ≥ newLayout.columns ||
         widget.position.row ≥ newLayout.rows ||
         widgetEndCol > newLayout.columns ||
         widgetEndRow > newLayout.rows then
        if widget.position.column ≥ newLayout.columns ||
           widget.position.row ≥ newLayout.rows then
          { acc with removed := acc.removed ++ [widget] }
        else
          { acc with affected := acc.affected ++ [widget] }
      else
        { acc with unaffected := acc.unaffected ++ [widget] })
    ⟨[], [], []⟩

/-- Three-way impact classification mirroring the branch structure of
getAffectedWidgets. -/
inductive Impact where
  | unaffectedW : Impact
  | affectedW : Impact
  | removedW : Impact
  deriving DecidableEq, Repr

/-- Classification of a single widget against the new layout, read off
the branch conditions of getAffectedWidgets. -/
def classifyWidget (widget : Widget) (newLayout : GridLayout) : Impact :=
  let widgetEndCol := widget.position.column + widget.size.width
  let widgetEndRow := widget.position.row + widget.size.height
  if widget.position.column ≥ newLayout.columns ||
     widget.position.row ≥ newLayout.rows ||
     widgetEndCol > newLayout.columns ||
     widgetEndRow > newLayout.rows then
    if widget.position.column ≥ newLayout.columns ||
       widget.position.row ≥ newLayout.rows then
      .removedW
    else
      .affectedW
  else
    .unaffectedW

/-! Heap-level model of adjustWidgetsToLayout, used to settle the
aliasing question: in the source each widget holds references to its
nested position and size records, and the shallow spread copy
adjustedWidget = { ...widget } copies the references, not the records.
Assignments such as adjustedWidget.position.column = v therefore write
through the shared record. The heap is a pair of stores from record
addresses to record values. -/

/-- A widget as it lives on the JavaScript heap: the nested position and
size records are addresses into the stores. -/
structure HWidget where
  id : String
  posRef : Nat
  sizeRef : Nat
  deriving DecidableEq, Repr

/-- Stores for position and size records. -/
structure Store where
  pos : Nat → GridPosition
  siz : Nat → GridSize

/-- Pointwise update of the position store. -/
def Store.setPos (s : Store) (r : Nat) (v : GridPosition) : Store :=
  { s with pos := fun n => if n = r then v else s.pos n }

/-- Pointwise update of the size store. -/
def Store.setSiz (s : Store) (r : Nat) (v : GridSize) : Store :=
  { s with siz := fun n => if n = r then v else s.siz n }

/-- Heap-level body of adjustWidgetsToLayout for one widget, statement
by statement. The spread copy yields a widget with the same posRef and
sizeRef; every field assignment in the source is a store write at that
shared address, and every field read goes through the current store. -/
def adjustWidgetH (widget : HWidget) (layout : GridLayout) (s0 : Store) :
    HWidget × Store :=
  let adjusted : HWidget := { id := widget.id, posRef := widget.posRef, sizeRef := widget.sizeRef }
  let s1 :=
    if (s0.pos widget.posRef).column ≥ layout.columns then
      s0.setPos adjusted.posRef
        { s0.pos adjusted.posRef with
            column := max 0 (layout.columns - (s0.siz widget.sizeRef).width) }
    else s0
  let s2 :=
    if (s1.pos widget.posRef).row ≥ layout.rows then
      s1.setPos adjusted.posRef
        { s1.pos adjusted.posRef with
            row := max 0 (layout.rows - (s1.siz widget.sizeRef).height) }
    else s1
  let s3 :=
    if (s2.pos widget.posRef).column + (s2.siz widget.sizeRef).width > layout.columns then
      s2.setSiz adjusted.sizeRef
        { s2.siz adjusted.sizeRef with
            width := max 1 (layout.columns - (s2.pos widget.posRef).column) }
    else s2
  let s4 :=
    if (s3.pos widget.posRef).row + (s3.siz widget.sizeRef).height > layout.rows then
      s3.setSiz adjusted.sizeRef
        { s3.siz adjusted.sizeRef with
            height := max 1 (layout.rows - (s3.pos widget.posRef).row) }
    else s3
  let s5 := s4.setSiz adjusted.sizeRef
    { s4.siz adjusted.sizeRef with
        width := max 1 (min 6 (s4.siz adjusted.sizeRef).width) }
  let s6 := s5.setSiz adjusted.sizeRef
    { s5.siz adjusted.sizeRef with
        height := max 1 (min 6 (s5.siz adjusted.sizeRef).height) }
  (adjusted, s6)

/-- Heap-level adjustWidgetsToLayout: maps over the list threading the
store left to right. -/
def adjustWidgetsToLayoutH (widgets : List HWidget) (layout : GridLayout) (s : Store) :
    List HWidget × Store :=
  match widgets with
  | [] => ([], s)
  | w :: ws =>
    let (w', s') := adjustWidgetH w layout s
    let (ws', s'') := adjustWidgetsToLayoutH ws layout s'
    (w' :: ws', s'')

/-! Coordinate codec (src/artifacts/dashboard/utils.ts lines 8-101).
Strings are modelled as lists of UTF-16 code units; the ASCII case
mapping of toUpperCase is modelled (exotic non-ASCII code points whose
upper case lands in A-Z are outside the model). -/

/-- Translation of indexToLetter (utils.ts lines 8-19). The source
throws on a negative index; the Nat domain models the non-negative case
the claims quantify over. The loop runs with result accumulating on the
left and index := floor(index/26) - 1, stopping when the index would go
negative (that is, when index < 26 at the start of an iteration). -/
def indexToLetter (index : Nat) : List Nat :=
  if index < 26 then [65 + index % 26]
  else indexToLetter (index / 26 - 1) ++ [65 + index % 26]
termination_by index
decreasing_by
  have h26 : 26 ≤ index := by omega
  have : index / 26 ≤ index := Nat.div_le_self index 26
  have : 1 ≤ index / 26 := (Nat.one_le_div_iff (by omega)).mpr h26
  omega

/-- ASCII case normalization of one UTF-16 code unit, the per-character
effect of toUpperCase on the inputs in the model. -/
def upCode (c : Nat) : Nat :=
  if 97 ≤ c ∧ c ≤ 122 then c - 32 else c

/-- Loop of letterToIndex (utils.ts lines 34-40): per character, check
the upper-cased code is in A-Z and accumulate base-26. -/
def letterToIndexLoop : List Nat → Int → Except String Int
  | [], acc => .ok acc
  | c :: cs, acc =>
    let code := upCode c
    if code < 65 ∨ code > 90 then
      .error "Letter must contain only alphabetic characters"
    else
      letterToIndexLoop cs (acc * 26 + ((code : Int) - 64))

/-- Translation of letterToIndex (utils.ts lines 26-43). -/
def letterToIndex (letter : List Nat) : Except String Int :=
  if letter = [] then .error "Letter must be a non-empty string"
  else (letterToIndexLoop letter 0).map (fun result => result - 1)

/-- Error kinds thrown by parseCoordinate, one per thrown message. -/
inductive CoordError where
  | emptyInput : CoordError
  | invalidFormat : CoordError
  | rowNotPositive : CoordError
  deriving DecidableEq, Repr

/-- Structured coordinate: letter column (as code units) and row. -/
structure GridCoordinate where
  column : List Nat
  row : Int
  deriving DecidableEq, Repr

/-- Code-unit class of the regex class [A-Z]. -/
def isUpperAlphaCode (c : Nat) : Bool :=
  65 ≤ c && c ≤ 90

/-- Code-unit class of the regex class backslash-d, which is [0-9]. -/
def isDigitCode (c : Nat) : Bool :=
  48 ≤ c && c ≤ 57

/-- Anchored match of the regex ([A-Z]+)(d+) used by parseCoordinate
(utils.ts line 88), returning the two capture groups. Because the letter
class and the digit class are disjoint, a string matches exactly when
its maximal upper-alpha prefix is nonempty and the (nonempty) remainder
is all digits, and the capture groups are that unique split. -/
def coordRegexMatch (s : List Nat) : Option (List Nat × List Nat) :=
  let letters := s.takeWhile isUpperAlphaCode
  let rest := s.dropWhile isUpperAlphaCode
  if !letters.isEmpty && !rest.isEmpty && rest.all isDigitCode then
    some (letters, rest)
  else
    none

/-- Decimal value of an all-digit code-unit list, the behaviour of
parseInt(rowStr, 10) on the strings that reach it (nonempty, digits
only, modelled exactly over Int). -/
def parseIntDigits (digits : List Nat) : Int :=
  digits.foldl (fun acc c => acc * 10 + ((c : Int) - 48)) 0

/-- Translation of parseCoordinate (utils.ts lines 83-101). -/
def parseCoordinate (s : List Nat) : Except CoordError GridCoordinate :=
  if s = [] then .error .emptyInput
  else
    match coordRegexMatch s with
    | none => .error .invalidFormat
    | some (column, rowStr) =>
      let row := parseIntDigits rowStr
      if row < 1 then .error .rowNotPositive
      else .ok { column := column, row := row }

/-- Modelled from the spec: the pattern named by the claim for
parseCoordinate, anchored [A-Z]+ then [1-9] then [0-9]*. Kept separate
from the source's regex (which allows leading zeros) so the two can be
compared. -/
def specCoordPattern (s : List Nat) : Bool :=
  let letters := s.takeWhile isUpperAlphaCode
  let rest := s.dropWhile isUpperAlphaCode
  !letters.isEmpty &&
    (match rest with
     | d :: ds => 49 ≤ d && d ≤ 57 && ds.all isDigitCode
     | [] => false)

/-! Normalization layer (first document inside
src/lib/dashboard/serialization.ts). -/

/-- Translation of deserializeLayout (serialization.ts lines 148-167)
after JSON.parse: the top-level shape check, then per-field
clamp-with-default. -/
def deserializeLayout (parsed : Js) : Except String GridLayout :=
  if !parsed.isTruthyObject then
    .error "Invalid layout data: must be an object"
  else
    .ok
      { columns := max 1 (min 12 (numOr (parsed.getField "columns") 4))
        rows := max 1 (min 12 (numOr (parsed.getField "rows") 4))
        cellSize :=
          { width := max 100 (min 500
              (numOr (optChainField (parsed.getField "cellSize") "width") 200))
            height := max 100 (min 500
              (numOr (optChainField (parsed.getField "cellSize") "height") 150)) } }

/-- Field that is present as a nonempty (truthy) string, the pass
condition of the checks of the form
(!x || typeof x !== 'string') in the validator. -/
def truthyString (v : Option Js) : Option String :=
  match v with
  | some (.str s) => if s = "" then none else some s
  | _ => none

/-- Per-widget normalization inside validateAndNormalizeDashboard
(serialization.ts lines 62-97): shape checks on the widget, its id,
type, position and size, then clamp-with-default on the numeric fields
and truthy-or-default on content and config. -/
def normalizeWidget (widget : Js) (index : Nat) : Except String Widget :=
  if !widget.isTruthyObject then
    .error ("Invalid widget at index " ++ toString index ++ ": must be an object")
  else
    match truthyString (widget.getField "id") with
    | none => .error ("Invalid widget at index " ++ toString index ++ ": missing or invalid id")
    | some id =>
      match truthyString (widget.getField "type") with
      | none => .error ("Invalid widget at index " ++ toString index ++ ": missing or invalid type")
      | some type =>
        match widget.getField "position" with
        | some position =>
          if !position.isTruthyObject then
            .error ("Invalid widget at index " ++ toString index ++ ": missing or invalid position")
          else
            match widget.getField "size" with
            | some size =>
              if !size.isTruthyObject then
                .error ("Invalid widget at index " ++ toString index ++ ": missing or invalid size")
              else
                .ok
                  { id := id
                    type := type
                    position :=
                      { column := max 0 (numOr (position.getField "column") 0)
                        row := max 0 (numOr (position.getField "row") 0) }
                    size :=
                      { width := max 1 (min 6 (numOr (size.getField "width") 1))
                        height := max 1 (min 6 (numOr (size.getField "height") 1)) }
                    content := jsOr (widget.getField "content") (.obj [])
                    config := jsOr (widget.getField "config") (.obj []) }
            | none => .error ("Invalid widget at index " ++ toString index ++ ": missing or invalid size")
        | none => .error ("Invalid widget at index " ++ toString index ++ ": missing or invalid position")

/-- Normalization of the widget array, left to right with the index
threaded for error messages; the first thrown error aborts the map. -/
def normalizeWidgets : List Js → Nat → Except String (List Widget)
  | [], _ => .ok []
  | w :: ws, index => do
    let w' ← normalizeWidget w index
    let ws' ← normalizeWidgets ws (index + 1)
    .ok (w' :: ws')

/-- Translation of validateAndNormalizeDashboard (serialization.ts lines
29-114): structural presence/type checks, then clamp-with-default
normalization of layout, widgets and metadata. All current-time reads
are the parameter now. -/
def validateAndNormalizeDashboard (data : Js) (now : String) :
    Except String DashboardData :=
  if !data.isTruthyObject then
    .error "Invalid dashboard data: must be an object"
  else
    match truthyString (data.getField "version") with
    | none => .error "Invalid dashboard data: missing or invalid version"
    | some version =>
      match data.getField "layout" with
      | some layoutJs =>
        if !layoutJs.isTruthyObject then
          .error "Invalid dashboard data: missing or invalid layout"
        else
          match data.getField "widgets" with
          | some (.arr widgetsJs) =>
            match data.getField "metadata" with
            | some metadataJs =>
              if !metadataJs.isTruthyObject then
                .error "Invalid dashboard data: missing or invalid metadata"
              else do
                let widgets ← normalizeWidgets widgetsJs 0
                .ok
                  { version := version
                    layout :=
                      { columns := max 1 (min 12 (numOr (layoutJs.getField "columns") 4))
                        rows := max 1 (min 12 (numOr (layoutJs.getField "rows") 4))
                        cellSize :=
                          { width := max 100 (min 500
                              (numOr (optChainField (layoutJs.getField "cellSize") "width") 200))
                            height := max 100 (min 500
                              (numOr (optChainField (layoutJs.getField "cellSize") "height") 150)) } }
                    widgets := widgets
                    metadata :=
                      { createdAt := jsOr (metadataJs.getField "createdAt") (.str now)
                        lastModified := jsOr (metadataJs.getField "lastModified") (.str now)
                        theme := jsOr (metadataJs.getField "theme") (.str "default")
                        title := jsOr (metadataJs.getField "title") (.str "Untitled Dashboard")
                        description := jsOr (metadataJs.getField "description") (.str "") } }
            | none => .error "Invalid dashboard data: missing or invalid metadata"
          | some _ => .error "Invalid dashboard data: widgets must be an array"
          | none => .error "Invalid dashboard data: widgets must be an array"
      | none => .error "Invalid dashboard data: missing or invalid layout"

/-- Translation of deserializeDashboard (serialization.ts lines 17-24):
JSON.parse (its outcome is the argument) followed by
validateAndNormalizeDashboard, any error re-thrown with a prefix. -/
def deserializeDashboard (parseResult : Except String Js) (now : String) :
    Except String DashboardData :=
  match parseResult.bind (fun parsed => validateAndNormalizeDashboard parsed now) with
  | .ok d => .ok d
  | .error e => .error ("Failed to deserialize dashboard: " ++ e)

/-- Result record of validateDashboardJSON. -/
structure ValidationResult where
  isValid : Bool
  errors : List String
  deriving DecidableEq, Repr

/-- Translation of validateDashboardJSON (serialization.ts lines
253-267): runs JSON.parse (outcome is the argument) and
validateAndNormalizeDashboard, pushing the failure message instead of
propagating; isValid is emptiness of the collected errors. -/
def validateDashboardJSON (parseResult : Except String Js) (now : String) :
    ValidationResult :=
  let errors : List String :=
    match parseResult.bind (fun parsed => validateAndNormalizeDashboard parsed now) with
    | .ok _ => []
    | .error e => [e]
  { isValid := errors.isEmpty, errors := errors }

/-! Encoding of an in-memory dashboard back to parsed JSON, modelling
JSON.parse (JSON.stringify d) for serializeDashboard followed by
deserializeDashboard; stringify-then-parse is exact on these values. -/

/-- JSON encoding of a layout. -/
def jsOfLayout (l : GridLayout) : Js :=
  .obj
    [("columns", .num l.columns), ("rows", .num l.rows),
     ("cellSize", .obj [("width", .num l.cellSize.width), ("height", .num l.cellSize.height)])]

/-- JSON encoding of a widget. -/
def jsOfWidget (w : Widget) : Js :=
  .obj
    [("id", .str w.id), ("type", .str w.type),
     ("position", .obj [("column", .num w.position.column), ("row", .num w.position.row)]),
     ("size", .obj [("width", .num w.size.width), ("height", .num w.size.height)]),
     ("content", w.content), ("config", w.config)]

/-- JSON encoding of the metadata record. -/
def jsOfMetadata (m : DashboardMetadata) : Js :=
  .obj
    [("createdAt", m.createdAt), ("lastModified", m.lastModified),
     ("theme", m.theme), ("title", m.title), ("description", m.description)]

/-- JSON encoding of a full dashboard document. -/
def jsOfDashboard (d : DashboardData) : Js :=
  .obj
    [("version", .str d.version), ("layout", jsOfLayout d.layout),
     ("widgets", .arr (d.widgets.map jsOfWidget)),
     ("metadata", jsOfMetadata d.metadata)]

/-- Modelled from the spec (section 3): the invariants the round-trip
claim assumes of a dashboard - numeric fields within their declared
ranges, widget footprints inside the layout, pairwise non-overlapping
footprints, and unique widget ids. -/
def specInvariants (d : DashboardData) : Prop :=
  (1 ≤ d.layout.columns ∧ d.layout.columns ≤ 12) ∧
  (1 ≤ d.layout.rows ∧ d.layout.rows ≤ 12) ∧
  (100 ≤ d.layout.cellSize.width ∧ d.layout.cellSize.width ≤ 500) ∧
  (100 ≤ d.layout.cellSize.height ∧ d.layout.cellSize.height ≤ 500) ∧
  (∀ w ∈ d.widgets,
    0 ≤ w.position.column ∧ 0 ≤ w.position.row ∧
    1 ≤ w.size.width ∧ w.size.width ≤ 6 ∧
    1 ≤ w.size.height ∧ w.size.height ≤ 6 ∧
    isValidWidgetPlacement w d.layout = true) ∧
  List.Pairwise (fun a b => doWidgetsOverlap a b = false) d.widgets ∧
  (d.widgets.map Widget.id).Nodup

/-! Concrete fixtures used by the counterexamples and witnesses. -/

/-- Default 4x4 layout with the default cell size. -/
def layout4 : GridLayout :=
  { columns := 4, rows := 4, cellSize := { width := 200, height := 150 } }

/-- Proposed 2x2 layout. -/
def layout2 : GridLayout :=
  { columns := 2, rows := 2, cellSize := { width := 200, height := 150 } }

/-- Metadata fixture with nonempty string fields. -/
def meta0 : DashboardMetadata :=
  { createdAt := .str "2024-01-01T00:00:00.000Z"
    lastModified := .str "2024-01-01T00:00:00.000Z"
    theme := .str "default"
    title := .str "Title"
    description := .str "" }

/-- Widget at (3,3) of size 1x1. -/
def widget33 : Widget :=
  { id := "w1", type := "text", position := { column := 3, row := 3 }
    size := { width := 1, height := 1 }, content := .obj [], config := .obj [] }

/-- Dashboard holding widget33 on the 4x4 layout. -/
def dash33 : DashboardData :=
  { version := "1.0", layout := layout4, widgets := [widget33], metadata := meta0 }

/-- Heap-level counterpart of widget33: its position and size records
live at addresses 0. -/
def hWidget33 : HWidget := { id := "w1", posRef := 0, sizeRef := 0 }

/-- Store where address 0 holds position (3,3) and size 1x1. -/
def store33 : Store :=
  { pos := fun _ => { column := 3, row := 3 }
    siz := fun _ => { width := 1, height := 1 } }

/-- Widget at (0,0) of size 2x1. -/
def widgetA : Widget :=
  { id := "a", type := "text", position := { column := 0, row := 0 }
    size := { width := 2, height := 1 }, content := .obj [], config := .obj [] }

/-- Widget at (1,0) of size 1x1. -/
def widgetB : Widget :=
  { id := "b", type := "text", position := { column := 1, row := 0 }
    size := { width := 1, height := 1 }, content := .obj [], config := .obj [] }

/-- Widget at (2,0) of size 1x1. -/
def widgetC : Widget :=
  { id := "c", type := "text", position := { column := 2, row := 0 }
    size := { width := 1, height := 1 }, content := .obj [], config := .obj [] }

/-- Widget with the same footprint as widgetA but a distinct id. -/
def widgetA2 : Widget :=
  { id := "a2", type := "text", position := { column := 0, row := 0 }
    size := { width := 2, height := 1 }, content := .obj [], config := .obj [] }

/-- Widget whose footprint exceeds the 4x4 layout. -/
def widgetOut : Widget :=
  { id := "out", type := "text", position := { column := 3, row := 0 }
    size := { width := 3, height := 1 }, content := .obj [], config := .obj [] }

/-- Well-shaped dashboard JSON whose two distinct widgets have
intersecting footprints. -/
def overlapDoc : Js :=
  .obj
    [("version", .str "1.0"), ("layout", jsOfLayout layout4),
     ("widgets", .arr [jsOfWidget widgetA, jsOfWidget widgetA2]),
     ("metadata", jsOfMetadata meta0)]

/-- Well-shaped dashboard JSON with a widget whose footprint exceeds
the layout bounds. -/
def outOfBoundsDoc : Js :=
  .obj
    [("version", .str "1.0"), ("layout", jsOfLayout layout4),
     ("widgets", .arr [jsOfWidget widgetOut]),
     ("metadata", jsOfMetadata meta0)]

/-- Dashboard satisfying all the spec invariants whose metadata theme is
the empty string. -/
def dashEmptyTheme : DashboardData :=
  { version := "1.0", layout := layout4, widgets := []
    metadata := { meta0 with theme := .str "" } }

/-- Dashboard with one widget satisfying every invariant and all the
truthiness side conditions, used as the round-trip witness. -/
def dashRound : DashboardData :=
  { version := "1.0", layout := layout4, widgets := [widgetA], metadata := meta0 }

/-- Dashboard wrapping a layout fragment with the given columns and
rows, used against validateAndNormalizeDashboard. -/
def dashWithLayoutDims (c r : Int) : Js :=
  .obj
    [("version", .str "1.0"),
     ("layout", .obj [("columns", .num c), ("rows", .num r)]),
     ("widgets", .arr []), ("metadata", jsOfMetadata meta0)]

/-! Theorems. -/

/-- C7: shrinking the layout from a 4x4 grid to a 2x2 grid with a
widget at (3,3) of size 1x1, getAffectedWidgets classifies that widget
as removed (its position alone lies outside the new grid), while
updateDashboardLayout on the same inputs returns the widget
repositioned to (1,1) with its size unchanged at 1x1. -/
theorem shrink_to_2x2_removes_and_repositions :
    getAffectedWidgets [widget33] layout4 layout2 =
      { unaffected := [], affected := [], removed := [widget33] } ∧
    (updateDashboardLayout dash33 layout2 "t1").widgets =
      [{ widget33 with
           position := { column := 1, row := 1 }
           size := { width := 1, height := 1 } }] ∧
    (updateDashboardLayout dash33 layout2 "t1").layout = layout2 :=
  ⟨rfl, rfl, rfl⟩

/-- C2: the heap-level run of adjustWidgetsToLayout (the widget
adjustment performed by updateDashboardLayout) on a widget at (3,3) of
size 1x1 against the 2x2 layout writes through the shallow-copied
widget into the caller's position record: after the call the input
widget's position record (address 0) holds (1,1), no longer the
original (3,3), and the returned widget still references the same
position and size records as the input widget (full aliasing). -/
theorem adjustWidgetsToLayout_mutates_input_and_aliases :
    store33.pos hWidget33.posRef = { column := 3, row := 3 } ∧
    (adjustWidgetsToLayoutH [hWidget33] layout2 store33).2.pos hWidget33.posRef =
      { column := 1, row := 1 } ∧
    (adjustWidgetsToLayoutH [hWidget33] layout2 store33).1 =
      [{ id := "w1", posRef := hWidget33.posRef, sizeRef := hWidget33.sizeRef }] :=
  ⟨rfl, rfl, rfl⟩

/-- C1 counterexample: on the layout fragment with columns 99 and
rows 0 - columns above range, rows below range - the lenient
normalization does not clamp rows to the nearest bound 1: the falsy
value 0 falls into the default 4, in deserializeLayout and in the
shared clamping of validateAndNormalizeDashboard alike. -/
theorem deserializeLayout_rows_zero_defaults_not_clamps :
    deserializeLayout (Js.obj [("columns", Js.num 99), ("rows", Js.num 0)]) =
      .ok { columns := 12, rows := 4, cellSize := { width := 200, height := 150 } } ∧
    (deserializeLayout (Js.obj [("columns", Js.num 99), ("rows", Js.num 0)])).map
        GridLayout.rows ≠ .ok 1 ∧
    (validateAndNormalizeDashboard (dashWithLayoutDims 99 0) "t1").map
        (fun d => d.layout.rows) = .ok 4 := by
  refine ⟨rfl, ?_, rfl⟩
  intro h
  have h2 : (Except.ok (4 : Int) : Except String Int) = .ok 1 := h
  simp at h2

/-- C1 amended: for a layout fragment whose columns value is above
range and whose rows value is below range, the lenient normalization
clamps columns to 12 and clamps a nonzero rows value to 1, but a rows
value of exactly 0 is falsy and falls into the default 4 instead of
being clamped; deserializeLayout and the shared clamping of
validateAndNormalizeDashboard agree on this. -/
theorem deserializeLayout_clamps_with_zero_default (c r : Int)
    (hc : 12 < c) (hr : r < 1) :
    deserializeLayout (Js.obj [("columns", Js.num c), ("rows", Js.num r)]) =
      .ok { columns := 12, rows := if r = 0 then 4 else 1,
            cellSize := { width := 200, height := 150 } } ∧
    (validateAndNormalizeDashboard (dashWithLayoutDims c r) "t1").map
        (fun d => d.layout) =
      .ok { columns := 12, rows := if r = 0 then 4 else 1,
            cellSize := { width := 200, height := 150 } } := by
  have hcol : max 1 (min 12 (numOr (some (Js.num c)) 4)) = 12 := by
    simp only [numOr, jsNumber]
    split <;> omega
  have hrow : max 1 (min 12 (numOr (some (Js.num r)) 4)) = if r = 0 then 4 else 1 := by
    simp only [numOr, jsNumber]
    split <;> omega
  have h1 : deserializeLayout (Js.obj [("columns", Js.num c), ("rows", Js.num r)]) =
      .ok { columns := max 1 (min 12 (numOr (some (Js.num c)) 4))
            rows := max 1 (min 12 (numOr (some (Js.num r)) 4))
            cellSize := { width := 200, height := 150 } } := rfl
  have h2 : validateAndNormalizeDashboard (dashWithLayoutDims c r) "t1" =
      .ok { version := "1.0"
            layout :=
              { columns := max 1 (min 12 (numOr (some (Js.num c)) 4))
                rows := max 1 (min 12 (numOr (some (Js.num r)) 4))
                cellSize := { width := 200, height := 150 } }
            widgets := []
            metadata := meta0 } := rfl
  rw [h1, h2, hcol, hrow]
  exact ⟨rfl, rfl⟩

/-- C1 witness: the amended clamping behaviour instantiated at the
concrete input columns 99, rows 0. -/
theorem deserializeLayout_clamps_with_zero_default_witness :
    (12 : Int) < 99 ∧ (0 : Int) < 1 ∧
    (deserializeLayout (Js.obj [("columns", Js.num 99), ("rows", Js.num 0)]) =
        .ok { columns := 12, rows := 4, cellSize := { width := 200, height := 150 } } ∧
      (validateAndNormalizeDashboard (dashWithLayoutDims 99 0) "t1").map
          (fun d => d.layout) =
        .ok { columns := 12, rows := 4, cellSize := { width := 200, height := 150 } }) :=
  ⟨by norm_num, by norm_num,
    deserializeLayout_clamps_with_zero_default 99 0 (by norm_num) (by norm_num)⟩

/-- C5 counterexample: the string "A01" (code units 65, 48, 49) does
not match the claimed pattern of letters then [1-9] then [0-9]*, yet
parseCoordinate accepts it, returning column "A" and row 1: leading
zeros in the row part are accepted by the source's regex. -/
theorem parseCoordinate_accepts_leading_zero :
    specCoordPattern [65, 48, 49] = false ∧
    parseCoordinate [65, 48, 49] = .ok { column := [65], row := 1 } :=
  ⟨rfl, rfl⟩

/-- C5 amended: parseCoordinate fails on every string that does not
match the anchored pattern of one or more letters A-Z followed by one
or more digits 0-9 (in particular the empty string and strings with
non-letter column parts); on a matching string whose digit part has
value at least 1 it succeeds with the structured coordinate, whose row
is then at least 1 (leading zeros accepted); on a matching string whose
digit part has value 0 it fails with the row-positivity error. -/
theorem parseCoordinate_matches_source_regex (s : List Nat) :
    (coordRegexMatch s = none → ∃ e, parseCoordinate s = .error e) ∧
    (∀ column rowStr, coordRegexMatch s = some (column, rowStr) →
      (1 ≤ parseIntDigits rowStr →
        parseCoordinate s = .ok { column := column, row := parseIntDigits rowStr }) ∧
      (parseIntDigits rowStr < 1 → parseCoordinate s = .error .rowNotPositive)) ∧
    (∀ column row, parseCoordinate s = .ok { column := column, row := row } → 1 ≤ row) := by
  by_cases hs : s = []
  · subst hs
    refine ⟨fun _ => ⟨.emptyInput, rfl⟩, ?_, ?_⟩
    · intro column rowStr h
      simp [coordRegexMatch] at h
    · intro column row h
      simp [parseCoordinate] at h
  · refine ⟨?_, ?_, ?_⟩
    · intro hnone
      refine ⟨.invalidFormat, ?_⟩
      simp [parseCoordinate, hs, hnone]
    · intro column rowStr h
      constructor
      · intro hge
        simp [parseCoordinate, hs, h]
        omega
      · intro hlt
        simp [parseCoordinate, hs, h, hlt]
    · intro column row h
      simp only [parseCoordinate, hs, if_false] at h
      rcases hm : coordRegexMatch s with _ | ⟨cols, digits⟩
      · simp [hm] at h
      · simp only [hm] at h
        by_cases hrow : parseIntDigits digits < 1
        · simp [hrow] at h
        · simp only [hrow, if_false] at h
          cases h
          omega

/-- C5 witness: the amended behaviour instantiated at the concrete
string "A1" (code units 65, 49), whose digit part has value 1. -/
theorem parseCoordinate_matches_source_regex_witness :
    coordRegexMatch [65, 49] = some ([65], [49]) ∧
    1 ≤ parseIntDigits [49] ∧
    parseCoordinate [65, 49] = .ok { column := [65], row := parseIntDigits [49] } :=
  ⟨rfl, by decide,
    ((parseCoordinate_matches_source_regex [65, 49]).2.1 [65] [49] rfl).1 (by decide)⟩

/-- C8: doWidgetsOverlap is symmetric, returns false on equal ids, and
for distinct ids (for genuine widgets, sizes at least 1 on each axis)
returns true exactly when the half-open footprints intersect on both
axes; the widget at (0,0) of size 2x1 overlaps the widget at (1,0) of
size 1x1 but not the widget at (2,0) of size 1x1. -/
theorem doWidgetsOverlap_characterization :
    (∀ a b, doWidgetsOverlap a b = doWidgetsOverlap b a) ∧
    (∀ a b, a.id = b.id → doWidgetsOverlap a b = false) ∧
    (∀ a b, a.id ≠ b.id →
      1 ≤ a.size.width → 1 ≤ a.size.height → 1 ≤ b.size.width → 1 ≤ b.size.height →
      (doWidgetsOverlap a b = true ↔ footprintsIntersect a b)) ∧
    doWidgetsOverlap widgetA widgetB = true ∧
    doWidgetsOverlap widgetA widgetC = false := by
  refine ⟨?_, ?_, ?_, rfl, rfl⟩
  · intro a b
    simp only [doWidgetsOverlap]
    by_cases h : a.id = b.id
    · rw [if_pos h, if_pos h.symm]
    · rw [if_neg h, if_neg (fun hr => h hr.symm)]
      rw [Bool.eq_iff_iff]
      simp only [Bool.not_eq_true', Bool.or_eq_false_iff, decide_eq_false_iff_not]
      omega
  · intro a b h
    simp [doWidgetsOverlap, h]
  · intro a b h hw1 hh1 hw2 hh2
    simp only [doWidgetsOverlap, if_neg h]
    simp only [Bool.not_eq_true', Bool.or_eq_false_iff, decide_eq_false_iff_not]
    unfold footprintsIntersect
    constructor
    · intro hno
      refine ⟨⟨max a.position.column b.position.column, ?_, ?_, ?_, ?_⟩,
              ⟨max a.position.row b.position.row, ?_, ?_, ?_, ?_⟩⟩ <;> omega
    · rintro ⟨⟨x, hx1, hx2, hx3, hx4⟩, ⟨y, hy1, hy2, hy3, hy4⟩⟩
      omega

/-- C8 witness: symmetry, same-id exemption and the half-open
intersection characterization applied at the concrete widgets. -/
theorem doWidgetsOverlap_characterization_witness :
    doWidgetsOverlap widgetA widgetB = doWidgetsOverlap widgetB widgetA ∧
    (widgetA.id = widgetA.id ∧ doWidgetsOverlap widgetA widgetA = false) ∧
    (widgetA.id ≠ widgetB.id ∧
      (doWidgetsOverlap widgetA widgetB = true ↔ footprintsIntersect widgetA widgetB)) :=
  ⟨doWidgetsOverlap_characterization.1 widgetA widgetB,
   ⟨rfl, doWidgetsOverlap_characterization.2.1 widgetA widgetA rfl⟩,
   ⟨by decide,
    doWidgetsOverlap_characterization.2.2.1 widgetA widgetB (by decide)
      (by decide) (by decide) (by decide) (by decide)⟩⟩

/-- Fold of the classify-style step starting from an arbitrary
accumulator appends to each bucket exactly the widgets of the matching
class, preserving order. -/
theorem foldl_impact_partition (f : Widget → Impact) (widgets : List Widget)
    (acc : AffectedWidgets) :
    widgets.foldl
      (fun acc widget =>
        match f widget with
        | .removedW => { acc with removed := acc.removed ++ [widget] }
        | .affectedW => { acc with affected := acc.affected ++ [widget] }
        | .unaffectedW => { acc with unaffected := acc.unaffected ++ [widget] }) acc =
    { unaffected := acc.unaffected ++ widgets.filter (fun w => f w == .unaffectedW)
      affected := acc.affected ++ widgets.filter (fun w => f w == .affectedW)
      removed := acc.removed ++ widgets.filter (fun w => f w == .removedW) } := by
  induction widgets generalizing acc with
  | nil => simp
  | cons w ws ih =>
    simp only [List.foldl_cons, List.filter_cons]
    cases hf : f w <;> simp [ih, hf]

/-- Rewriting getAffectedWidgets as the fold of the classify-style
step: the inline branch structure agrees with classifyWidget. -/
theorem getAffectedWidgets_eq_classify_fold (widgets : List Widget)
    (cl nl : GridLayout) :
    getAffectedWidgets widgets cl nl =
      widgets.foldl
        (fun acc widget =>
          match classifyWidget widget nl with
          | .removedW => { acc with removed := acc.removed ++ [widget] }
          | .affectedW => { acc with affected := acc.affected ++ [widget] }
          | .unaffectedW => { acc with unaffected := acc.unaffected ++ [widget] })
        ⟨[], [], []⟩ := by
  unfold getAffectedWidgets
  apply List.foldl_ext
  intro acc widget _
  by_cases h1 : widget.position.column ≥ nl.columns <;>
    by_cases h2 : widget.position.row ≥ nl.rows <;>
    by_cases h3 : widget.position.column + widget.size.width > nl.columns <;>
    by_cases h4 : widget.position.row + widget.size.height > nl.rows <;>
    simp [classifyWidget, h1, h2, h3, h4]

/-- Sum of the three class-filter lengths is the input length: every
widget lands in exactly one class. -/
theorem classify_filter_length_sum (widgets : List Widget) (nl : GridLayout) :
    (widgets.filter (fun w => classifyWidget w nl == .unaffectedW)).length +
    (widgets.filter (fun w => classifyWidget w nl == .affectedW)).length +
    (widgets.filter (fun w => classifyWidget w nl == .removedW)).length =
      widgets.length := by
  induction widgets with
  | nil => simp
  | cons w ws ih =>
    cases hf : classifyWidget w nl <;> simp [List.filter_cons, hf] <;> omega

/-- C10: getAffectedWidgets partitions its input: each of the three
returned lists is exactly the order-preserving sublist of input widgets
of the corresponding class, every input widget lands in exactly one
list (the lengths sum to the input length), and the output lists hold
the input widgets themselves, unmodified. -/
theorem getAffectedWidgets_partitions (widgets : List Widget) (cl nl : GridLayout) :
    (getAffectedWidgets widgets cl nl).unaffected =
      widgets.filter (fun w => classifyWidget w nl == .unaffectedW) ∧
    (getAffectedWidgets widgets cl nl).affected =
      widgets.filter (fun w => classifyWidget w nl == .affectedW) ∧
    (getAffectedWidgets widgets cl nl).removed =
      widgets.filter (fun w => classifyWidget w nl == .removedW) ∧
    (getAffectedWidgets widgets cl nl).unaffected.length +
      (getAffectedWidgets widgets cl nl).affected.length +
      (getAffectedWidgets widgets cl nl).removed.length = widgets.length := by
  rw [getAffectedWidgets_eq_classify_fold, foldl_impact_partition]
  simp [classify_filter_length_sum]

/-- Decoding loop over a concatenation: decode the prefix first, then
continue with its accumulator; an error in the prefix aborts. -/
theorem letterToIndexLoop_append (xs ys : List Nat) (acc : Int) :
    letterToIndexLoop (xs ++ ys) acc =
      match letterToIndexLoop xs acc with
      | .ok a => letterToIndexLoop ys a
      | .error e => .error e := by
  induction xs generalizing acc with
  | nil => simp [letterToIndexLoop]
  | cons c cs ih =>
    simp only [List.cons_append, letterToIndexLoop]
    by_cases h : upCode c < 65 ∨ upCode c > 90
    · rw [if_pos h, if_pos h]
    · rw [if_neg h, if_neg h]
      exact ih _

/-- Decoding a single in-range letter code. -/
theorem letterToIndexLoop_single (m : Nat) (hm : m < 26) (acc : Int) :
    letterToIndexLoop [65 + m] acc = .ok (acc * 26 + (m + 1)) := by
  have h1 : upCode (65 + m) = 65 + m := by
    rw [upCode, if_neg (by omega)]
  simp only [letterToIndexLoop, h1]
  rw [if_neg (by omega)]
  congr 1
  push_cast
  omega

/-- Core of the codec round trip: the decoding loop inverts the
bijective base-26 encoding, off by the one the encoder subtracts. -/
theorem letterToIndexLoop_indexToLetter (n : Nat) :
    letterToIndexLoop (indexToLetter n) 0 = .ok ((n : Int) + 1) := by
  induction n using Nat.strong_induction_on with
  | _ n ih =>
    rw [indexToLetter.eq_def]
    by_cases h : n < 26
    · rw [if_pos h]
      rw [letterToIndexLoop_single (n % 26) (Nat.mod_lt n (by omega)) 0]
      have : n % 26 = n := Nat.mod_eq_of_lt h
      simp [this]
    · rw [if_neg h]
      have hq : 1 ≤ n / 26 := (Nat.one_le_div_iff (by omega)).mpr (by omega)
      have hlt : n / 26 - 1 < n := by
        have := Nat.div_le_self n 26
        omega
      simp only [letterToIndexLoop_append, ih (n / 26 - 1) hlt]
      rw [letterToIndexLoop_single (n % 26) (Nat.mod_lt n (by omega))]
      have hdm := Nat.div_add_mod n 26
      congr 1
      have hc : ((n / 26 - 1 : Nat) : Int) = (n / 26 : Nat) - 1 := by
        omega
      rw [hc]
      push_cast
      omega

/-- The encoder never returns the empty string. -/
theorem indexToLetter_ne_nil (n : Nat) : indexToLetter n ≠ [] := by
  rw [indexToLetter.eq_def]
  by_cases h : n < 26
  · simp [h]
  · simp [h]

/-- The decoding loop succeeds from any accumulator exactly when every
code unit upper-cases into A-Z. -/
theorem letterToIndexLoop_ok_iff (s : List Nat) :
    ∀ acc : Int, (∃ k, letterToIndexLoop s acc = .ok k) ↔
      ∀ c ∈ s, 65 ≤ upCode c ∧ upCode c ≤ 90 := by
  induction s with
  | nil => intro acc; simp [letterToIndexLoop]
  | cons c cs ih =>
    intro acc
    simp only [letterToIndexLoop]
    by_cases h : upCode c < 65 ∨ upCode c > 90
    · rw [if_pos h]
      simp only [List.mem_cons]
      constructor
      · rintro ⟨k, hk⟩
        cases hk
      · intro hall
        have := hall c (Or.inl rfl)
        omega
    · rw [if_neg h]
      rw [ih]
      simp only [List.mem_cons]
      constructor
      · intro hall
        rintro x (rfl | hx)
        · omega
        · exact hall x hx
      · intro hall x hx
        exact hall x (Or.inr hx)

/-- C6: the coordinate codec is a bijective base-26 encoding:
letterToIndex inverts indexToLetter on every non-negative index, the
encoding hits the spot values A (index 0), Z (25), AA (26), ZZ (701)
and AAA (702) - written as UTF-16 code units, with 65 = A and 90 = Z -
and letterToIndex succeeds exactly when the string is nonempty and
every character is a letter A-Z or a-z (case-insensitive input
accepted, normalized to upper case before decoding). -/
theorem coordinate_codec_roundtrip :
    (∀ n : Nat, letterToIndex (indexToLetter n) = .ok (n : Int)) ∧
    indexToLetter 0 = [65] ∧
    indexToLetter 25 = [90] ∧
    indexToLetter 26 = [65, 65] ∧
    indexToLetter 701 = [90, 90] ∧
    indexToLetter 702 = [65, 65, 65] ∧
    (∀ s : List Nat, (∃ k, letterToIndex s = .ok k) ↔
      (s ≠ [] ∧ ∀ c ∈ s, (65 ≤ c ∧ c ≤ 90) ∨ (97 ≤ c ∧ c ≤ 122))) := by
  refine ⟨?_, ?_, ?_, ?_, ?_, ?_, ?_⟩
  · intro n
    rw [letterToIndex, if_neg (indexToLetter_ne_nil n),
      letterToIndexLoop_indexToLetter n]
    show Except.ok ((n : Int) + 1 - 1) = Except.ok (n : Int)
    norm_num
  · rw [indexToLetter.eq_def]; norm_num
  · rw [indexToLetter.eq_def]; norm_num
  · rw [indexToLetter.eq_def]; norm_num
    rw [indexToLetter.eq_def]; norm_num
  · rw [indexToLetter.eq_def]; norm_num
    rw [indexToLetter.eq_def]; norm_num
  · rw [indexToLetter.eq_def]; norm_num
    rw [indexToLetter.eq_def]; norm_num
    rw [indexToLetter.eq_def]; norm_num
  · intro s
    by_cases hs : s = []
    · subst hs
      simp [letterToIndex]
    · rw [letterToIndex, if_neg hs]
      constructor
      · rintro ⟨k, hk⟩
        refine ⟨hs, ?_⟩
        have hex : ∃ k0, letterToIndexLoop s 0 = .ok k0 := by
          rcases hloop : letterToIndexLoop s 0 with e | k0
          · rw [hloop] at hk
            cases hk
          · exact ⟨k0, rfl⟩
        have hall := (letterToIndexLoop_ok_iff s 0).mp hex
        intro c hc
        have := hall c hc
        rw [upCode] at this
        by_cases hlow : 97 ≤ c ∧ c ≤ 122
        · right; exact hlow
        · left
          rw [if_neg hlow] at this
          exact this
      · rintro ⟨-, hall⟩
        have hex : ∃ k0, letterToIndexLoop s 0 = .ok k0 := by
          rw [letterToIndexLoop_ok_iff s 0]
          intro c hc
          have := hall c hc
          rw [upCode]
          by_cases hlow : 97 ≤ c ∧ c ≤ 122
          · rw [if_pos hlow]; omega
          · rw [if_neg hlow]; omega
        rcases hex with ⟨k0, hk0⟩
        exact ⟨k0 - 1, by rw [hk0]; rfl⟩

/-- Core fact for the migration invariant: against a layout with at
least one column and one row, a widget with non-negative position and
positive sizes is adjusted to a placement inside the grid with both
size dimensions in [1,6]. -/
theorem adjustWidget_placement (w : Widget) (L : GridLayout)
    (hC : 1 ≤ L.columns) (hR : 1 ≤ L.rows)
    (hc : 0 ≤ w.position.column) (hr : 0 ≤ w.position.row)
    (hw : 1 ≤ w.size.width) (hh : 1 ≤ w.size.height) :
    isValidWidgetPlacement (adjustWidget w L) L = true ∧
    1 ≤ (adjustWidget w L).size.width ∧ (adjustWidget w L).size.width ≤ 6 ∧
    1 ≤ (adjustWidget w L).size.height ∧ (adjustWidget w L).size.height ≤ 6 := by
  simp only [adjustWidget, isValidWidgetPlacement, Bool.and_eq_true, decide_eq_true_eq]
  split_ifs <;> omega

/-- C9: for a dashboard whose widgets all have non-negative position
coordinates and sizes at least 1, every widget returned by
updateDashboardLayout satisfies isValidWidgetPlacement against the
returned clamped layout, with width and height in [1,6]. -/
theorem updateDashboardLayout_valid_placements (d : DashboardData)
    (nl : GridLayout) (now : String)
    (h : ∀ w ∈ d.widgets, 0 ≤ w.position.column ∧ 0 ≤ w.position.row ∧
        1 ≤ w.size.width ∧ 1 ≤ w.size.height) :
    ∀ w' ∈ (updateDashboardLayout d nl now).widgets,
      isValidWidgetPlacement w' (updateDashboardLayout d nl now).layout = true ∧
      1 ≤ w'.size.width ∧ w'.size.width ≤ 6 ∧
      1 ≤ w'.size.height ∧ w'.size.height ≤ 6 := by
  intro w' hw'
  have hwid : (updateDashboardLayout d nl now).widgets =
      d.widgets.map (fun w => adjustWidget w (clampProposedLayout nl)) := rfl
  rw [hwid] at hw'
  rcases List.mem_map.mp hw' with ⟨w, hwmem, rfl⟩
  rcases h w hwmem with ⟨hc, hr, hww, hhh⟩
  have hlay : (updateDashboardLayout d nl now).layout = clampProposedLayout nl := rfl
  rw [hlay]
  refine adjustWidget_placement w (clampProposedLayout nl) ?_ ?_ hc hr hww hhh
  · simp only [clampProposedLayout]
    omega
  · simp only [clampProposedLayout]
    omega

/-- C9 witness: the migration invariant applied to the dashboard
holding the widget at (3,3) of size 1x1, shrunk to the 2x2 layout. -/
theorem updateDashboardLayout_valid_placements_witness :
    (∀ w ∈ dash33.widgets, 0 ≤ w.position.column ∧ 0 ≤ w.position.row ∧
        1 ≤ w.size.width ∧ 1 ≤ w.size.height) ∧
    (isValidWidgetPlacement (adjustWidget widget33 (clampProposedLayout layout2))
        (updateDashboardLayout dash33 layout2 "t1").layout = true ∧
      1 ≤ (adjustWidget widget33 (clampProposedLayout layout2)).size.width ∧
      (adjustWidget widget33 (clampProposedLayout layout2)).size.width ≤ 6 ∧
      1 ≤ (adjustWidget widget33 (clampProposedLayout layout2)).size.height ∧
      (adjustWidget widget33 (clampProposedLayout layout2)).size.height ≤ 6) := by
  have hyp : ∀ w ∈ dash33.widgets, 0 ≤ w.position.column ∧ 0 ≤ w.position.row ∧
      1 ≤ w.size.width ∧ 1 ≤ w.size.height := by
    intro w hw
    have hw1 : w = widget33 := List.mem_singleton.mp hw
    subst hw1
    refine ⟨?_, ?_, ?_, ?_⟩ <;> norm_num [widget33]
  exact ⟨hyp, updateDashboardLayout_valid_placements dash33 layout2 "t1" hyp
    (adjustWidget widget33 (clampProposedLayout layout2)) (List.mem_singleton.mpr rfl)⟩

/-- C3 counterexample: a well-shaped dashboard JSON containing two
distinct widgets with identical footprints passes validateDashboardJSON
with isValid true and no errors: the bounds and overlap checks are
never run by it, contrary to the claim that such input yields
isValid false. -/
theorem validateDashboardJSON_accepts_overlapping :
    validateDashboardJSON (.ok overlapDoc) "t1" = { isValid := true, errors := [] } ∧
    (validateAndNormalizeDashboard overlapDoc "t1").map DashboardData.widgets =
      .ok [widgetA, widgetA2] ∧
    widgetA.id ≠ widgetA2.id ∧
    doWidgetsOverlap widgetA widgetA2 = true :=
  ⟨rfl, rfl, by decide, rfl⟩

/-- C3 amended: validateDashboardJSON never throws, returning the
record of isValid and collected errors; isValid is true exactly when
JSON parsing and the structural validation/normalization
(validateAndNormalizeDashboard) succeed, equivalently when the error
list is empty. It runs no bounds or overlap pass: the well-shaped
document with two overlapping widgets and the one with an out-of-bounds
widget are both accepted. -/
theorem validateDashboardJSON_structural_only :
    (∀ (p : Except String Js) (now : String),
      ((validateDashboardJSON p now).isValid = true ↔
        ∃ d, p.bind (fun j => validateAndNormalizeDashboard j now) = .ok d) ∧
      ((validateDashboardJSON p now).isValid = true ↔
        (validateDashboardJSON p now).errors = [])) ∧
    (validateDashboardJSON (.ok overlapDoc) "t1").isValid = true ∧
    doWidgetsOverlap widgetA widgetA2 = true ∧
    (validateDashboardJSON (.ok outOfBoundsDoc) "t1").isValid = true ∧
    isValidWidgetPlacement widgetOut layout4 = false := by
  refine ⟨?_, rfl, rfl, rfl, rfl⟩
  intro p now
  unfold validateDashboardJSON
  rcases hb : p.bind (fun j => validateAndNormalizeDashboard j now) with e | d
  · simp [hb]
  · simp [hb]

/-- Presence of a nonempty string passes the truthy-string check. -/
theorem truthyString_str {s : String} (h : s ≠ "") :
    truthyString (some (.str s)) = some s := by
  simp [truthyString, h]

/-- Coercion-with-default on a number with default 0 is the identity. -/
theorem numOr_num_zero_default (x : Int) : numOr (some (.num x)) 0 = x := by
  simp only [numOr, jsNumber]
  split <;> omega

/-- Coercion-with-default on a nonzero number keeps the number. -/
theorem numOr_num_of_ne (x d : Int) (h : x ≠ 0) : numOr (some (.num x)) d = x := by
  simp [numOr, jsNumber, h]

/-- Truthy-or-default on a truthy value is the identity. -/
theorem jsOr_truthy {j : Js} (d : Js) (h : j.truthy = true) : jsOr (some j) d = j := by
  simp [jsOr, h]

/-- Normalization of an encoded widget is the identity when the widget
already satisfies the ranges and its strings and payloads are truthy. -/
theorem normalizeWidget_jsOfWidget (w : Widget) (i : Nat)
    (hid : w.id ≠ "") (hty : w.type ≠ "")
    (hc : w.content.truthy = true) (hcf : w.config.truthy = true)
    (hpc : 0 ≤ w.position.column) (hpr : 0 ≤ w.position.row)
    (hw1 : 1 ≤ w.size.width) (hw6 : w.size.width ≤ 6)
    (hh1 : 1 ≤ w.size.height) (hh6 : w.size.height ≤ 6) :
    normalizeWidget (jsOfWidget w) i = .ok w := by
  have e3 : numOr (some (Js.num w.size.width)) 1 = w.size.width :=
    numOr_num_of_ne _ _ (by omega)
  have e4 : numOr (some (Js.num w.size.height)) 1 = w.size.height :=
    numOr_num_of_ne _ _ (by omega)
  have m1 : max 0 w.position.column = w.position.column := by omega
  have m2 : max 0 w.position.row = w.position.row := by omega
  have m3 : max 1 (min 6 w.size.width) = w.size.width := by omega
  have m4 : max 1 (min 6 w.size.height) = w.size.height := by omega
  unfold normalizeWidget
  rw [show Js.getField (jsOfWidget w) "id" = some (Js.str w.id) from rfl,
      show Js.getField (jsOfWidget w) "type" = some (Js.str w.type) from rfl,
      show Js.getField (jsOfWidget w) "position" =
        some (Js.obj [("column", Js.num w.position.column),
          ("row", Js.num w.position.row)]) from rfl,
      show Js.getField (jsOfWidget w) "size" =
        some (Js.obj [("width", Js.num w.size.width),
          ("height", Js.num w.size.height)]) from rfl,
      show Js.getField (jsOfWidget w) "content" = some w.content from rfl,
      show Js.getField (jsOfWidget w) "config" = some w.config from rfl,
      show (jsOfWidget w).isTruthyObject = true from rfl,
      truthyString_str hid, truthyString_str hty]
  simp only [Js.isTruthyObject, Bool.not_true, Bool.not_false, reduceIte]
  rw [show Js.getField (Js.obj [("column", Js.num w.position.column),
        ("row", Js.num w.position.row)]) "column" = some (Js.num w.position.column) from rfl,
      show Js.getField (Js.obj [("column", Js.num w.position.column),
        ("row", Js.num w.position.row)]) "row" = some (Js.num w.position.row) from rfl,
      show Js.getField (Js.obj [("width", Js.num w.size.width),
        ("height", Js.num w.size.height)]) "width" = some (Js.num w.size.width) from rfl,
      show Js.getField (Js.obj [("width", Js.num w.size.width),
        ("height", Js.num w.size.height)]) "height" = some (Js.num w.size.height) from rfl]
  rw [jsOr_truthy _ hc, jsOr_truthy _ hcf]
  simp only [numOr_num_zero_default, e3, e4, m1, m2, m3, m4, Bool.false_eq_true, if_false]

/-- Normalization of an encoded widget list is the identity, from any
starting index, under the per-widget conditions. -/
theorem normalizeWidgets_jsOfWidgets (ws : List Widget) :
    ∀ i : Nat, (∀ w ∈ ws, w.id ≠ "" ∧ w.type ≠ "" ∧
      w.content.truthy = true ∧ w.config.truthy = true ∧
      0 ≤ w.position.column ∧ 0 ≤ w.position.row ∧
      1 ≤ w.size.width ∧ w.size.width ≤ 6 ∧
      1 ≤ w.size.height ∧ w.size.height ≤ 6) →
    normalizeWidgets (ws.map jsOfWidget) i = .ok ws := by
  induction ws with
  | nil => intro i _; rfl
  | cons w ws ih =>
    intro i h
    obtain ⟨h1, h2, h3, h4, h5, h6, h7, h8, h9, h10⟩ := h w (List.mem_cons_self w ws)
    have hw := normalizeWidget_jsOfWidget w i h1 h2 h3 h4 h5 h6 h7 h8 h9 h10
    have hws := ih (i + 1) (fun x hx => h x (List.mem_cons_of_mem w hx))
    simp only [normalizeWidgets, hw, hws]
    rfl

/-- Strict validate-and-normalize of an encoded dashboard is the
identity when every numeric field is already in range and the required
strings and payloads are truthy. -/
theorem validateAndNormalizeDashboard_jsOfDashboard (d : DashboardData) (now : String)
    (hver : d.version ≠ "")
    (hl1 : 1 ≤ d.layout.columns) (hl2 : d.layout.columns ≤ 12)
    (hl3 : 1 ≤ d.layout.rows) (hl4 : d.layout.rows ≤ 12)
    (hl5 : 100 ≤ d.layout.cellSize.width) (hl6 : d.layout.cellSize.width ≤ 500)
    (hl7 : 100 ≤ d.layout.cellSize.height) (hl8 : d.layout.cellSize.height ≤ 500)
    (hws : ∀ w ∈ d.widgets, w.id ≠ "" ∧ w.type ≠ "" ∧
      w.content.truthy = true ∧ w.config.truthy = true ∧
      0 ≤ w.position.column ∧ 0 ≤ w.position.row ∧
      1 ≤ w.size.width ∧ w.size.width ≤ 6 ∧
      1 ≤ w.size.height ∧ w.size.height ≤ 6)
    (hm1 : d.metadata.createdAt.truthy = true)
    (hm2 : d.metadata.lastModified.truthy = true)
    (hm3 : d.metadata.theme.truthy = true)
    (hm4 : d.metadata.title.truthy = true)
    (hm5 : d.metadata.description.truthy = true ∨ d.metadata.description = .str "") :
    validateAndNormalizeDashboard (jsOfDashboard d) now = .ok d := by
  have hwidgets := normalizeWidgets_jsOfWidgets d.widgets 0 hws
  have hd : jsOr (some d.metadata.description) (.str "") = d.metadata.description := by
    rcases hm5 with h | h
    · exact jsOr_truthy _ h
    · rw [h]; rfl
  have c1 : numOr (some (Js.num d.layout.columns)) 4 = d.layout.columns :=
    numOr_num_of_ne _ _ (by omega)
  have c2 : numOr (some (Js.num d.layout.rows)) 4 = d.layout.rows :=
    numOr_num_of_ne _ _ (by omega)
  have c3 : numOr (some (Js.num d.layout.cellSize.width)) 200 = d.layout.cellSize.width :=
    numOr_num_of_ne _ _ (by omega)
  have c4 : numOr (some (Js.num d.layout.cellSize.height)) 150 = d.layout.cellSize.height :=
    numOr_num_of_ne _ _ (by omega)
  have x1 : max 1 (min 12 d.layout.columns) = d.layout.columns := by omega
  have x2 : max 1 (min 12 d.layout.rows) = d.layout.rows := by omega
  have x3 : max 100 (min 500 d.layout.cellSize.width) = d.layout.cellSize.width := by omega
  have x4 : max 100 (min 500 d.layout.cellSize.height) = d.layout.cellSize.height := by omega
  unfold validateAndNormalizeDashboard
  rw [show (jsOfDashboard d).isTruthyObject = true from rfl,
      show Js.getField (jsOfDashboard d) "version" = some (.str d.version) from rfl,
      truthyString_str hver,
      show Js.getField (jsOfDashboard d) "layout" = some (jsOfLayout d.layout) from rfl,
      show Js.getField (jsOfDashboard d) "widgets" =
        some (.arr (d.widgets.map jsOfWidget)) from rfl,
      show Js.getField (jsOfDashboard d) "metadata" =
        some (jsOfMetadata d.metadata) from rfl]
  simp only [Js.isTruthyObject, Bool.not_true, Bool.not_false, reduceIte,
    Bool.false_eq_true, if_false]
  rw [show Js.getField (jsOfLayout d.layout) "columns" =
        some (.num d.layout.columns) from rfl,
      show Js.getField (jsOfLayout d.layout) "rows" = some (.num d.layout.rows) from rfl,
      show Js.getField (jsOfLayout d.layout) "cellSize" =
        some (Js.obj [("width", Js.num d.layout.cellSize.width),
          ("height", Js.num d.layout.cellSize.height)]) from rfl,
      show optChainField (some (Js.obj [("width", Js.num d.layout.cellSize.width),
          ("height", Js.num d.layout.cellSize.height)])) "width" =
        some (.num d.layout.cellSize.width) from rfl,
      show optChainField (some (Js.obj [("width", Js.num d.layout.cellSize.width),
          ("height", Js.num d.layout.cellSize.height)])) "height" =
        some (.num d.layout.cellSize.height) from rfl,
      show Js.getField (jsOfMetadata d.metadata) "createdAt" =
        some d.metadata.createdAt from rfl,
      show Js.getField (jsOfMetadata d.metadata) "lastModified" =
        some d.metadata.lastModified from rfl,
      show Js.getField (jsOfMetadata d.metadata) "theme" = some d.metadata.theme from rfl,
      show Js.getField (jsOfMetadata d.metadata) "title" = some d.metadata.title from rfl,
      show Js.getField (jsOfMetadata d.metadata) "description" =
        some d.metadata.description from rfl,
      jsOr_truthy _ hm1, jsOr_truthy _ hm2, jsOr_truthy _ hm3, jsOr_truthy _ hm4, hd,
      hwidgets]
  simp only [c1, c2, c3, c4, x1, x2, x3, x4]
  rfl

/-- C4 counterexample: the dashboard with empty-string theme metadata
satisfies every invariant the claim assumes (numeric ranges, footprints
in bounds, no overlaps, unique ids - it has no widgets at all), yet the
round trip does not return it unchanged: the falsy theme is replaced by
the default, so deserializeDashboard of its serialization differs from
the original. -/
theorem roundtrip_changes_empty_theme :
    specInvariants dashEmptyTheme ∧
    deserializeDashboard (.ok (jsOfDashboard dashEmptyTheme)) "t1" =
      .ok { dashEmptyTheme with
              metadata := { dashEmptyTheme.metadata with theme := .str "default" } } ∧
    deserializeDashboard (.ok (jsOfDashboard dashEmptyTheme)) "t1" ≠
      .ok dashEmptyTheme := by
  refine ⟨?_, rfl, ?_⟩
  · simp [specInvariants, dashEmptyTheme, layout4]
  · intro hcontra
    have h1 : (Except.ok { dashEmptyTheme with
        metadata := { dashEmptyTheme.metadata with theme := .str "default" } } :
        Except String DashboardData) = .ok dashEmptyTheme := hcontra
    have h2 := congrArg
      (fun x : Except String DashboardData =>
        match x with
        | Except.ok dd => dd.metadata.theme
        | Except.error _ => Js.null) h1
    have h3 : Js.str "default" = Js.str "" := h2
    have h4 : "default" = "" := Js.str.inj h3
    exact absurd h4 (by decide)

/-- C4 amended: the round trip deserializeDashboard of
serializeDashboard is the identity on a dashboard d that satisfies all
the spec invariants, provided additionally that the runtime-required
strings are nonempty (version, widget ids and types) and that the
widget payloads and metadata fields are truthy (description may also be
the empty string): these extra conditions are forced by the truthy-or-
default normalization, which replaces falsy fields. -/
theorem serialize_roundtrip_amended (d : DashboardData) (now : String)
    (hinv : specInvariants d)
    (hver : d.version ≠ "")
    (hws : ∀ w ∈ d.widgets, w.id ≠ "" ∧ w.type ≠ "" ∧
      w.content.truthy = true ∧ w.config.truthy = true)
    (hm : d.metadata.createdAt.truthy = true ∧ d.metadata.lastModified.truthy = true ∧
      d.metadata.theme.truthy = true ∧ d.metadata.title.truthy = true ∧
      (d.metadata.description.truthy = true ∨ d.metadata.description = .str "")) :
    deserializeDashboard (.ok (jsOfDashboard d)) now = .ok d := by
  obtain ⟨⟨a1, a2⟩, ⟨a3, a4⟩, ⟨a5, a6⟩, ⟨a7, a8⟩, hperw, hpair, hnodup⟩ := hinv
  obtain ⟨hm1, hm2, hm3, hm4, hm5⟩ := hm
  have hcomb : ∀ w ∈ d.widgets, w.id ≠ "" ∧ w.type ≠ "" ∧
      w.content.truthy = true ∧ w.config.truthy = true ∧
      0 ≤ w.position.column ∧ 0 ≤ w.position.row ∧
      1 ≤ w.size.width ∧ w.size.width ≤ 6 ∧
      1 ≤ w.size.height ∧ w.size.height ≤ 6 := by
    intro w hw
    obtain ⟨b1, b2, b3, b4⟩ := hws w hw
    obtain ⟨p1, p2, p3, p4, p5, p6, -⟩ := hperw w hw
    exact ⟨b1, b2, b3, b4, p1, p2, p3, p4, p5, p6⟩
  have hv := validateAndNormalizeDashboard_jsOfDashboard d now hver
    a1 a2 a3 a4 a5 a6 a7 a8 hcomb hm1 hm2 hm3 hm4 hm5
  unfold deserializeDashboard
  rw [show (Except.ok (jsOfDashboard d)).bind
      (fun parsed => validateAndNormalizeDashboard parsed now) =
      validateAndNormalizeDashboard (jsOfDashboard d) now from rfl, hv]

/-- C4 witness: the amended round trip applied to the concrete
dashboard with one widget and fully truthy metadata. -/
theorem serialize_roundtrip_amended_witness :
    specInvariants dashRound ∧
    dashRound.version ≠ "" ∧
    (∀ w ∈ dashRound.widgets, w.id ≠ "" ∧ w.type ≠ "" ∧
      w.content.truthy = true ∧ w.config.truthy = true) ∧
    (dashRound.metadata.createdAt.truthy = true ∧
      dashRound.metadata.lastModified.truthy = true ∧
      dashRound.metadata.theme.truthy = true ∧
      dashRound.metadata.title.truthy = true ∧
      (dashRound.metadata.description.truthy = true ∨
        dashRound.metadata.description = .str "")) ∧
    deserializeDashboard (.ok (jsOfDashboard dashRound)) "t1" = .ok dashRound := by
  have h1 : specInvariants dashRound := by
    simp [specInvariants, dashRound, layout4, widgetA, isValidWidgetPlacement]
  have h2 : dashRound.version ≠ "" := by decide
  have h3 : ∀ w ∈ dashRound.widgets, w.id ≠ "" ∧ w.type ≠ "" ∧
      w.content.truthy = true ∧ w.config.truthy = true := by
    intro w hw
    have hw1 : w = widgetA := List.mem_singleton.mp hw
    subst hw1
    exact ⟨by decide, by decide, rfl, rfl⟩
  have h4 : dashRound.metadata.createdAt.truthy = true ∧
      dashRound.metadata.lastModified.truthy = true ∧
      dashRound.metadata.theme.truthy = true ∧
      dashRound.metadata.title.truthy = true ∧
      (dashRound.metadata.description.truthy = true ∨
        dashRound.metadata.description = .str "") :=
    ⟨rfl, rfl, rfl, rfl, Or.inr rfl⟩
  exact ⟨h1, h2, h3, h4, serialize_roundtrip_amended dashRound "t1" h1 h2 h3 h4⟩

end Rift
